import Mathlib

/-!
Verification of the ADUI metadata layer.

This file gives a shallow embedding of the TypeScript sources of the ADUI
repository and proves properties of the embedded code:

* `MetadataAdapter` (src/utils/MetadataAdapter.ts): conversion of an external
  window/tab/field JSON document into the internal canonical model, with the
  static embedded-reference store modelled as explicitly threaded state.
* `JSONFileDataProvider` (src/data/providers/JSONFileDataProvider.ts): the
  staged JSON-template import pipeline with its diagnostic log, structural
  validation, window-id extraction, storage, and the connection check.
* `ExternalMetadataProvider` (src/data/providers/APIDataProvider.ts): the
  TTL-cached getters, with wall-clock time and HTTP fetch outcomes passed in
  as explicit parameters.
* `useConnectionMonitor` (src/hooks/useConnectionMonitor.ts): the per-poll
  connection classification.

Optional / possibly-absent JSON object properties are modelled as `Option`;
JavaScript truthiness tests on strings, numbers and booleans are modelled by
the `truthyStr` / `jsOr*` helpers below (the empty string and the number 0 are
falsy).  Console logging, `Date` timestamps inside stored metadata, and the
debug-only pass-through payloads (`data`, `ui`, `_original*`) are not observed
by any verified property and are omitted from the embedding.
-/

/-- Truthiness of a possibly-undefined JS string: `undefined` and `""` are falsy. -/
def truthyStr : Option String → Bool
  | none => false
  | some s => s != ""

/-- JS `a || b` on possibly-undefined strings (empty string is falsy). -/
def jsOrOpt (a b : Option String) : Option String :=
  if truthyStr a then a else b

/-- JS `a || b` where `b` is a present string default. -/
def jsOrStr (a : Option String) (b : String) : String :=
  if truthyStr a then a.getD "" else b

/-- JS `a || b` on possibly-undefined numbers (0 is falsy). -/
def jsOrNum (a : Option Int) (b : Int) : Int :=
  match a with
  | some n => if n == 0 then b else n
  | none => b

/-- JS template-literal rendering of a possibly-undefined string
(`undefined` prints as the text "undefined"). -/
def jsStr : Option String → String
  | none => "undefined"
  | some s => s

/-- JS `String.prototype.endsWith`, modelled on the character list. -/
def strEndsWith (s post : String) : Bool :=
  post.data.isSuffixOf s.data

/-- Insertion-order association list standing in for a JS `Map`
(`Map.set` overwrites an existing key in place, else appends). -/
def mapSet {κ α : Type} [BEq κ] (m : List (κ × α)) (k : κ) (v : α) :
    List (κ × α) :=
  if (m.lookup k).isSome then
    m.map (fun p => if p.1 == k then (k, v) else p)
  else
    m ++ [(k, v)]

/-- JS `Map.get`, `undefined` (here `none`) when absent. -/
def mapGet {κ α : Type} [BEq κ] (m : List (κ × α)) (k : κ) : Option α :=
  m.lookup k

/-- A thrown JS error: either a runtime `TypeError` (e.g. calling `.map` on
`undefined`) or an explicitly constructed `Error`. -/
inductive JsError where
  | typeError (msg : String)
  | jsError (msg : String)
deriving DecidableEq

/-- Message carried by a thrown JS error. -/
def JsError.message : JsError → String
  | .typeError m => m
  | .jsError m => m

/-! ## External document shape

The external wire shape consumed by `MetadataAdapter.adaptWindowDefinition`
and by the JSON-import pipeline:
`{ windowId|id, name, tabs: [{ tabId|id, name, fields: [{ fieldId|id, name,
component, validation?, reference?, displayLogic?, ... }] }] }`. -/

/-- One entry of an external `reference.values` array. -/
structure ExtRefValue where
  key : Option String
  display : Option String
  value : Option String
  description : Option String
  color : Option String
  icon : Option String
  sortOrder : Option Int
deriving DecidableEq

/-- An external field `reference` object. -/
structure ExtReference where
  id : Option String
  name : Option String
  validationType : Option String
  values : Option (List ExtRefValue)
deriving DecidableEq

/-- The `validation` sub-object of an external field. -/
structure ExtValidation where
  required : Option Bool
  maxLength : Option Int
deriving DecidableEq

/-- The part of an external field `ui` object read by the adapter core. -/
structure ExtUI where
  helpText : Option String
deriving DecidableEq

/-- An external field object. -/
structure ExtField where
  fieldId : Option String
  id : Option String
  name : Option String
  component : Option String
  sequence : Option Int
  validation : Option ExtValidation
  isReadOnly : Option Bool
  isDisplayed : Option Bool
  ui : Option ExtUI
  help : Option String
  description : Option String
  displayLogic : Option String
  reference : Option ExtReference
deriving DecidableEq

/-- An external tab object; `fields` is `none` when the property is missing
or not an array. -/
structure ExtTab where
  tabId : Option String
  id : Option String
  name : Option String
  description : Option String
  sequence : Option Int
  tabLevel : Option Int
  isReadOnly : Option Bool
  isSingleRow : Option Bool
  fields : Option (List ExtField)
deriving DecidableEq

/-- An external window document; `tabs` is `none` when the property is
missing or not an array. -/
structure ExtWindow where
  windowId : Option String
  id : Option String
  name : Option String
  description : Option String
  windowType : Option String
  tabs : Option (List ExtTab)
deriving DecidableEq

/-! ## Internal (adapted) shape -/

/-- A converted reference value `{ key, value: display || value, description,
color, icon, sortOrder }`. -/
structure AdRefValue where
  key : Option String
  value : Option String
  description : Option String
  color : Option String
  icon : Option String
  sortOrder : Option Int
deriving DecidableEq

/-- An adapted field reference. -/
structure AdReference where
  id : String
  name : String
  validationType : String
  values : List AdRefValue
deriving DecidableEq

/-- An adapted field (debug pass-through payloads omitted). -/
structure AdField where
  id : Option String
  fieldId : Option String
  name : Option String
  displayType : String
  sequence : Int
  isMandatory : Bool
  isReadOnly : Bool
  isDisplayed : Bool
  fieldLength : Int
  help : Option String
  description : Option String
  displayLogic : Option String
  reference : Option AdReference
deriving DecidableEq

/-- An adapted tab. -/
structure AdTab where
  id : Option String
  tabId : Option String
  name : Option String
  description : Option String
  sequence : Int
  tabLevel : Int
  isReadOnly : Bool
  isSingleRow : Bool
  fields : List AdField
deriving DecidableEq

/-- An adapted window (the `metadata` block only carries source-tracking
strings and wall-clock timestamps and is omitted). -/
structure AdWindow where
  id : Option String
  name : Option String
  description : Option String
  windowType : String
  tabs : List AdTab
deriving DecidableEq

namespace MetadataAdapter

/-- The static `embeddedReferences : Map<string, any[]>` of the adapter,
modelled as explicitly threaded state. -/
def Store := List (String × List AdRefValue)
deriving DecidableEq

/-- Component mapping from external to internal format. -/
def componentTypeMap : List (String × String) :=
  [ ("QRCollectorField", "QRCollector")
  , ("MultiPhotoField", "MultiPhoto")
  , ("QRCodeField", "QRCode")
  , ("QRChecklistField", "QRChecklist")
  , ("FlippableQRChecklistField", "FlippableQRChecklist")
  , ("TaskListField", "TaskList")
  , ("TextField", "String")
  , ("TextAreaField", "Text")
  , ("SelectField", "List")
  , ("YesNoField", "YesNo")
  , ("CameraField", "Camera")
  , ("NumberField", "Integer") ]

/-- Conversion applied to each entry of `reference.values`. -/
def convertRefValue (v : ExtRefValue) : AdRefValue :=
  { key := v.key
  , value := jsOrOpt v.display v.value
  , description := v.description
  , color := v.color
  , icon := v.icon
  , sortOrder := v.sortOrder }

/-- Embeds `MetadataAdapter.adaptReference`: returns the adapted reference
and the updated embedded-reference store.  The source maps
`reference.values` twice (once for the store, once for the returned object)
with the same per-value conversion; the single `converted` list stands for
both. -/
def adaptReference (reference : Option ExtReference) (fieldId : Option String)
    (store : Store) : Option AdReference × Store :=
  match reference with
  | none => (none, store)
  | some ref =>
    match ref.values with
    | none => (none, store)
    | some vals =>
      let converted := vals.map convertRefValue
      if truthyStr ref.id then
        -- External reference - use provided ID
        ( some { id := ref.id.getD ""
               , name := jsOrStr ref.name "Reference"
               , validationType := jsOrStr ref.validationType "LIST"
               , values := converted }
        , store )
      else
        -- Embedded reference - generate unique ID and store data
        let referenceId := jsStr fieldId ++ "_EMBEDDED_REF"
        ( some { id := referenceId
               , name := jsOrStr ref.name "Reference"
               , validationType := jsOrStr ref.validationType "LIST"
               , values := converted }
        , mapSet store referenceId converted )

/-- Embeds `MetadataAdapter.adaptDisplayLogic`: the source deliberately
returns `undefined` in both branches (complex display logic disabled). -/
def adaptDisplayLogic (displayLogic : Option String) : Option String :=
  match displayLogic with
  | none => none
  | some _ => none

/-- Embeds `MetadataAdapter.adaptField`. -/
def adaptField (externalField : ExtField) (store : Store) : AdField × Store :=
  let displayType :=
    match externalField.component with
    | some c => (componentTypeMap.lookup c).getD "String"
    | none => "String"
  let (ref, store') :=
    adaptReference externalField.reference
      (jsOrOpt externalField.fieldId externalField.id) store
  ( { id := jsOrOpt externalField.fieldId externalField.id
    , fieldId := jsOrOpt externalField.fieldId externalField.id
    , name := externalField.name
    , displayType := displayType
    , sequence := jsOrNum externalField.sequence 10
    , isMandatory := (externalField.validation.bind ExtValidation.required).getD false
    , isReadOnly := externalField.isReadOnly.getD false
    , isDisplayed := externalField.isDisplayed != some false
    , fieldLength := jsOrNum (externalField.validation.bind ExtValidation.maxLength) 0
    , help := jsOrOpt (externalField.ui.bind ExtUI.helpText) externalField.help
    , description := externalField.description
    , displayLogic := adaptDisplayLogic externalField.displayLogic
    , reference := ref }
  , store' )

/-- Sequential adaptation of a tab's field array
(`externalTab.fields.map(f => this.adaptField(f))` with the static store
threaded through). -/
def adaptFields : List ExtField → Store → List AdField × Store
  | [], store => ([], store)
  | f :: fs, store =>
    let (af, store') := adaptField f store
    let (afs, store'') := adaptFields fs store'
    (af :: afs, store'')

/-- Embeds `MetadataAdapter.adaptTab`; reading `.map` off a missing `fields`
array raises a runtime `TypeError`. -/
def adaptTab (externalTab : ExtTab) (store : Store) :
    Except JsError (AdTab × Store) :=
  match externalTab.fields with
  | none => .error (.typeError "externalTab.fields is undefined")
  | some fs =>
    let (afs, store') := adaptFields fs store
    .ok
      ( { id := jsOrOpt externalTab.tabId externalTab.id
        , tabId := jsOrOpt externalTab.tabId externalTab.id
        , name := externalTab.name
        , description := externalTab.description
        , sequence := jsOrNum externalTab.sequence 10
        , tabLevel := jsOrNum externalTab.tabLevel 0
        , isReadOnly := externalTab.isReadOnly.getD false
        , isSingleRow := externalTab.isSingleRow != some false
        , fields := afs }
      , store' )

/-- Sequential adaptation of the tab array; a thrown error propagates. -/
def adaptTabs : List ExtTab → Store → Except JsError (List AdTab × Store)
  | [], store => .ok ([], store)
  | t :: ts, store =>
    match adaptTab t store with
    | .error e => .error e
    | .ok (atab, store') =>
      match adaptTabs ts store' with
      | .error e => .error e
      | .ok (atabs, store'') => .ok (atab :: atabs, store'')

/-- Embeds `MetadataAdapter.adaptWindowDefinition`.  The incoming store is
discarded (`this.embeddedReferences.clear()`); reading `.map` off a missing
`tabs` array raises a runtime `TypeError`. -/
def adaptWindowDefinition (externalWindow : ExtWindow) (store : Store) :
    Except JsError (AdWindow × Store) :=
  let _ := store
  let store0 : Store := []
  match externalWindow.tabs with
  | none => .error (.typeError "externalWindow.tabs is undefined")
  | some ts =>
    match adaptTabs ts store0 with
    | .error e => .error e
    | .ok (atabs, store') =>
      .ok
        ( { id := jsOrOpt externalWindow.windowId externalWindow.id
          , name := externalWindow.name
          , description := externalWindow.description
          , windowType := jsOrStr externalWindow.windowType "Transaction"
          , tabs := atabs }
        , store' )

/-- Embeds `MetadataAdapter.getEmbeddedReferenceValues` (JS `null` when the
id is not stored). -/
def getEmbeddedReferenceValues (store : Store) (referenceId : String) :
    Option (List AdRefValue) :=
  mapGet store referenceId

/-- Embeds `MetadataAdapter.isEmbeddedReference`:
`referenceId.endsWith('_EMBEDDED_REF')`. -/
def isEmbeddedReference (referenceId : String) : Bool :=
  strEndsWith referenceId "_EMBEDDED_REF"

/-- Embeds `MetadataAdapter.clearEmbeddedReferences`. -/
def clearEmbeddedReferences (_store : Store) : Store := []

end MetadataAdapter

namespace JSONFileDataProvider

/-- One entry of the import diagnostic log (`{stage, success, details,
timestamp, data?}`); the wall-clock timestamp and the JSON-stringified data
payload are not observed by any verified property and are omitted. -/
structure Diagnostic where
  stage : String
  success : Bool
  details : String
deriving DecidableEq

/-- Observable state of a `JSONFileDataProvider` instance.  `windowData` is
keyed by `adaptedWindow.id`, which in JS may be `undefined`, hence the
`Option String` key.  The `formData` map, `importedTemplate` and
`importTimestamp` fields are not read by any verified property and are
omitted. -/
structure ProviderState where
  windowData : List (Option String × AdWindow)
  referenceData : List (String × List ExtRefValue)
  importDiagnostics : List Diagnostic
deriving DecidableEq

/-- State right after the constructor ran (it logs one diagnostic). -/
def initialState : ProviderState :=
  { windowData := []
  , referenceData := []
  , importDiagnostics :=
      [⟨"initialization", true, "JSONFileDataProvider v2.0 initialized"⟩] }

/-- Indices of tabs failing the per-tab structure check
(`!tabValidation.hasId || !tabValidation.hasFields`). -/
def invalidTabIndices (tabs : List ExtTab) : List Nat :=
  (tabs.enum.filter fun p =>
    !(truthyStr p.2.tabId || truthyStr p.2.id) || p.2.fields.isNone).map
    fun p => p.1

/-- Embeds `validateTemplateStructure` (stage 4): returns the diagnostics it
appends and either `()` or the thrown error message. -/
def validateTemplateStructure (template : ExtWindow) :
    List Diagnostic × Except String Unit :=
  let start : List Diagnostic :=
    [⟨"structure_validation", true, "Starting template structure validation"⟩]
  let hasId := truthyStr template.windowId || truthyStr template.id
  let hasName := truthyStr template.name
  let hasTabs := template.tabs.isSome
  if !hasId then
    ( start ++
        [⟨"structure_validation", false, "Missing required windowId or id field"⟩]
    , .error "Template missing required windowId or id field" )
  else if !hasName then
    ( start ++
        [⟨"structure_validation", false, "Missing required name field"⟩]
    , .error "Template missing required name field" )
  else if !hasTabs then
    ( start ++
        [⟨"structure_validation", false, "Missing or invalid tabs array"⟩]
    , .error "Template missing required tabs array" )
  else
    let invalid := invalidTabIndices (template.tabs.getD [])
    if invalid.length > 0 then
      ( start ++
          [⟨"structure_validation", false, "Invalid tab structures found"⟩]
      , .error (toString invalid.length ++ " tabs have invalid structure") )
    else
      ( start ++
          [⟨"structure_validation", true, "Template structure validation successful"⟩]
      , .ok () )

/-- Slug generation from a window name:
`name.toUpperCase().replace(/[^A-Z0-9]/g, '_')` (ASCII case mapping). -/
def slugify (name : String) : String :=
  String.mk ((name.data.map Char.toUpper).map fun c =>
    if ('A' ≤ c && c ≤ 'Z') || ('0' ≤ c && c ≤ '9') then c else '_')

/-- Embeds `extractAndAnalyzeWindowId` (stage 5): three-tier fallback
`windowId` → `id` → slug of `name`. -/
def extractAndAnalyzeWindowId (template : ExtWindow) :
    List Diagnostic × Except String String :=
  let start : List Diagnostic :=
    [⟨"windowid_extraction", true, "Starting windowId extraction and analysis"⟩]
  let extracted : Option String :=
    if truthyStr template.windowId then template.windowId
    else if truthyStr template.id then template.id
    else if truthyStr template.name then some (slugify (template.name.getD ""))
    else none
  match extracted with
  | none =>
    ( start ++
        [⟨"windowid_extraction", false, "Unable to extract or generate windowId"⟩]
    , .error "Cannot determine windowId from template" )
  | some wid =>
    ( start ++
        [ ⟨"windowid_extraction", true, "WindowId extraction successful"⟩
        , ⟨"windowid_analysis", true, "WindowId compatibility analysis"⟩ ]
    , .ok wid )

/-- Embeds `adaptTemplateToADFormat` (stage 6): delegates to
`MetadataAdapter.adaptWindowDefinition` and wraps a thrown error.  The
adapter's static store is cleared by that call, so passing the empty store
is exact; the resulting store is not read by this provider's verified
properties and is discarded. -/
def adaptTemplateToADFormat (template : ExtWindow) :
    List Diagnostic × Except String AdWindow :=
  let start : List Diagnostic :=
    [⟨"metadata_adaptation", true, "Starting MetadataAdapter conversion"⟩]
  match MetadataAdapter.adaptWindowDefinition template [] with
  | .error e =>
    ( start ++ [⟨"metadata_adaptation", false, "Error: " ++ e.message⟩]
    , .error ("MetadataAdapter failed: " ++ e.message) )
  | .ok (aw, _) =>
    ( start ++
        [⟨"metadata_adaptation", true, "MetadataAdapter conversion successful"⟩]
    , .ok aw )

/-- Reference extraction over one field list (stage 8 inner loop):
`refId = field.reference.id || 'REF_' + field.fieldId`. -/
def extractRefsFromFields (rd : List (String × List ExtRefValue)) :
    List ExtField → List (String × List ExtRefValue)
  | [] => rd
  | f :: fs =>
    match f.reference with
    | some ref =>
      match ref.values with
      | some vals =>
        extractRefsFromFields
          (mapSet rd (jsOrStr ref.id ("REF_" ++ jsStr f.fieldId)) vals) fs
      | none => extractRefsFromFields rd fs
    | none => extractRefsFromFields rd fs

/-- Reference extraction over the tab list (stage 8 outer loop); only runs
after structural validation guaranteed every tab carries a fields array. -/
def extractRefsFromTabs (rd : List (String × List ExtRefValue)) :
    List ExtTab → List (String × List ExtRefValue)
  | [] => rd
  | t :: ts => extractRefsFromTabs (extractRefsFromFields rd (t.fields.getD [])) ts

/-- Diagnostic appended by the catch block (`logError('import_failed', e)`). -/
def failDiag (e : String) : Diagnostic :=
  ⟨"import_failed", false, "Error: " ++ e⟩

/-- Embeds `importJSONTemplate` called with a provided `jsonContent` whose
parse succeeded yielding `template` (stages 1-3 then always log success, so
failures of the remaining stages are the subject of the verified
properties).  Clears the previous diagnostics, runs the staged pipeline,
and either returns `true` or throws exactly once after logging the
failure. -/
def importJSONTemplate (st : ProviderState) (fileUri : String)
    (template : ExtWindow) : ProviderState × Except String Bool :=
  let log0 : List Diagnostic :=
    [ ⟨"import_start", true, "Starting JSON template import from: " ++ fileUri⟩
    , ⟨"file_access_check", true, "Checking file accessibility: " ++ fileUri⟩
    , ⟨"content_reading", true, "Using provided JSON content"⟩
    , ⟨"json_parsing", true, "Starting JSON parsing"⟩
    , ⟨"json_parsing", true, "JSON parsing successful"⟩ ]
  let (vlog, vres) := validateTemplateStructure template
  match vres with
  | .error e =>
    ( { st with importDiagnostics := log0 ++ vlog ++ [failDiag e] }
    , .error ("Failed to import JSON template: " ++ e) )
  | .ok () =>
    let (wlog, wres) := extractAndAnalyzeWindowId template
    match wres with
    | .error e =>
      ( { st with importDiagnostics := log0 ++ vlog ++ wlog ++ [failDiag e] }
      , .error ("Failed to import JSON template: " ++ e) )
    | .ok windowId =>
      let (alog, ares) := adaptTemplateToADFormat template
      match ares with
      | .error e =>
        ( { st with
              importDiagnostics := log0 ++ vlog ++ wlog ++ alog ++ [failDiag e] }
        , .error ("Failed to import JSON template: " ++ e) )
      | .ok adaptedWindow =>
        let slog : List Diagnostic :=
          [ ⟨"data_storage", true, "Storing imported template data"⟩
          , ⟨"data_storage", true, "Data storage successful"⟩ ]
        let rlog : List Diagnostic :=
          [ ⟨"reference_extraction", true, "Starting reference data extraction"⟩
          , ⟨"reference_extraction", true, "Reference data extraction complete"⟩ ]
        let clog : List Diagnostic :=
          [⟨"import_complete", true, "Successfully imported template: " ++ windowId⟩]
        ( { windowData := mapSet st.windowData adaptedWindow.id adaptedWindow
          , referenceData := extractRefsFromTabs st.referenceData (template.tabs.getD [])
          , importDiagnostics := log0 ++ vlog ++ wlog ++ alog ++ slog ++ rlog ++ clog }
        , .ok true )

/-- Embeds `isConnected`: `this.windowData.size > 0`; a total function (the
source method merely reads the map size and can not throw). -/
def isConnected (st : ProviderState) : Bool :=
  decide (0 < st.windowData.length)

/-- Embeds `clearImportedData`: empties every map and the diagnostics. -/
def clearImportedData (_st : ProviderState) : ProviderState :=
  { windowData := [], referenceData := [], importDiagnostics := [] }

/-- State-mutating operations of the provider that can touch `windowData`
(the remaining interface methods — the getters and `saveFormData` — only
read `windowData` or write the unmodelled `formData` map). -/
inductive ProviderOp where
  | importTemplate (fileUri : String) (template : ExtWindow)
  | clearImportedData
deriving DecidableEq

/-- Apply one operation to the provider state. -/
def applyOp (st : ProviderState) : ProviderOp → ProviderState
  | .importTemplate uri t => (importJSONTemplate st uri t).1
  | .clearImportedData => clearImportedData st

/-- Run a sequence of operations from the freshly constructed provider. -/
def runOps (ops : List ProviderOp) : ProviderState :=
  ops.foldl applyOp initialState

/-- Whether importing `template` succeeds (the outcome depends only on the
document, not on the provider state or file URI). -/
def importSucceeds (template : ExtWindow) : Bool :=
  (importJSONTemplate initialState "" template).2.isOk

/-- Specification-level predicate: some import in `ops` succeeded after the
last `clearImportedData`. -/
def successfulImportSinceClear (ops : List ProviderOp) : Bool :=
  ops.foldl
    (fun acc op =>
      match op with
      | .importTemplate _ t => acc || importSucceeds t
      | .clearImportedData => false)
    false

end JSONFileDataProvider

namespace ConnectionMonitor

/-- The connection states of `useConnectionMonitor`. -/
inductive ConnStatus where
  | connected
  | cached
  | offline
  | error
deriving DecidableEq

/-- Outcome of awaiting `provider.isConnected()` during one poll: a returned
boolean, or a thrown exception. -/
inductive ConnCheck where
  | ok (isConnected : Bool)
  | exn
deriving DecidableEq

/-- Embeds one poll of `checkConnection` from `useConnectionMonitor.ts`:
given the active provider's type name, the outcome of its `isConnected()`
call, and its cache size, returns the status that the poll stores. -/
def checkConnection (providerType : String) (check : ConnCheck)
    (cacheSize : Nat) : ConnStatus :=
  if providerType == "MockDataProvider" then .connected
  else if providerType == "JSONFileDataProvider" then .connected
  else if providerType == "ExternalMetadataProvider" then
    match check with
    | .ok true => .connected
    | .ok false => if cacheSize > 0 then .cached else .offline
    | .exn => if cacheSize > 0 then .cached else .error
  else .error

end ConnectionMonitor

namespace ExternalMetadataProvider

/-- The provider's private `cache : Map<string, {data, timestamp}>`.  The
source uses one map whose keys are disjointly prefixed (`window_...` holds
adapted windows, `ref_...` holds reference-value lists); it is modelled as
two maps split by payload type, keys kept with their prefixes. -/
structure ExtCache where
  winEntries : List (String × (Nat × AdWindow))
  refEntries : List (String × (Nat × List AdRefValue))
deriving DecidableEq

/-- Outcome of `fetch(baseUrl + '/windows/' + windowId)`:
a parsed body, a non-ok HTTP response, or a thrown network error. -/
inductive WinFetch where
  | ok (externalWindowDef : ExtWindow)
  | httpError (status : Nat) (statusText : String)
  | exn (msg : String)
deriving DecidableEq

/-- Embeds `ExternalMetadataProvider.getWindowDefinition`: serve from the
cache while the entry is fresh (`now - timestamp < cacheTimeout`),
otherwise fetch, adapt via `MetadataAdapter.adaptWindowDefinition`
(threading the adapter's static store) and cache the adapted window with
capture time `now`.  All thrown errors are wrapped as
`Failed to load window <id>: <cause>`. -/
def getWindowDefinition (cache : ExtCache) (cacheTimeout now : Nat)
    (windowId : String) (fetch : WinFetch) (store : MetadataAdapter.Store) :
    Except String AdWindow × ExtCache × MetadataAdapter.Store :=
  let cacheKey := "window_" ++ windowId
  let fresh : Except String AdWindow × ExtCache × MetadataAdapter.Store :=
    match fetch with
    | .exn msg =>
      (.error ("Failed to load window " ++ windowId ++ ": " ++ msg), cache, store)
    | .httpError status statusText =>
      ( .error ("Failed to load window " ++ windowId ++ ": HTTP " ++
          toString status ++ ": " ++ statusText)
      , cache, store )
    | .ok ext =>
      match MetadataAdapter.adaptWindowDefinition ext store with
      | .error e =>
        (.error ("Failed to load window " ++ windowId ++ ": " ++ e.message), cache, store)
      | .ok (aw, store') =>
        ( .ok aw
        , { cache with winEntries := mapSet cache.winEntries cacheKey (now, aw) }
        , store' )
  match mapGet cache.winEntries cacheKey with
  | some (timestamp, data) =>
    if now - timestamp < cacheTimeout then (.ok data, cache, store) else fresh
  | none => fresh

/-- Outcome of `fetch(baseUrl + '/references/' + referenceId)`: a parsed
body (whose `values` property may be absent), a non-ok HTTP response, or a
thrown network error. -/
inductive RefFetch where
  | ok (values : Option (List AdRefValue))
  | httpError
  | exn (msg : String)
deriving DecidableEq

/-- Embeds `ExternalMetadataProvider.getReferenceValues`: serve from the
cache while fresh; on a miss resolve embedded ids from the adapter's static
store (caching the hit, empty list on an unknown id), otherwise fetch
externally, caching `values || []` on a 2xx and returning `[]` on any
failure.  The method never throws. -/
def getReferenceValues (cache : ExtCache) (cacheTimeout now : Nat)
    (referenceId : String) (store : MetadataAdapter.Store) (fetch : RefFetch) :
    List AdRefValue × ExtCache :=
  let cacheKey := "ref_" ++ referenceId
  let fresh : List AdRefValue × ExtCache :=
    if MetadataAdapter.isEmbeddedReference referenceId then
      match MetadataAdapter.getEmbeddedReferenceValues store referenceId with
      | some embeddedValues =>
        ( embeddedValues
        , { cache with
              refEntries := mapSet cache.refEntries cacheKey (now, embeddedValues) } )
      | none => ([], cache)
    else
      match fetch with
      | .exn _ => ([], cache)
      | .httpError => ([], cache)
      | .ok ovs =>
        let values := ovs.getD []
        ( values
        , { cache with refEntries := mapSet cache.refEntries cacheKey (now, values) } )
  match mapGet cache.refEntries cacheKey with
  | some (timestamp, data) =>
    if now - timestamp < cacheTimeout then (data, cache) else fresh
  | none => fresh

end ExternalMetadataProvider

/-! ## Specification-level predicates and concrete sample documents -/

/-- Field `f` makes the adapter generate embedded-reference id `rid`:
`f` carries inline reference values, its reference id is falsy, and `rid`
is the synthetic `<fieldId>_EMBEDDED_REF` id. -/
def fieldGeneratesEmbeddedId (f : ExtField) (rid : String) : Prop :=
  ∃ ref vals, f.reference = some ref ∧ ref.values = some vals ∧
    truthyStr ref.id = false ∧
    rid = jsStr (jsOrOpt f.fieldId f.id) ++ "_EMBEDDED_REF"

/-- Some field of some tab of `w` makes the adapter generate `rid`. -/
def windowGeneratesEmbeddedId (w : ExtWindow) (rid : String) : Prop :=
  ∃ ts, w.tabs = some ts ∧ ∃ t ∈ ts, ∃ fs, t.fields = some fs ∧
    ∃ f ∈ fs, fieldGeneratesEmbeddedId f rid

/-- Inline reference values used by the sample documents. -/
def sampleRefValues : List ExtRefValue :=
  [ { key := some "OK", display := some "Pass", value := none
    , description := none, color := some "#00FF00", icon := none
    , sortOrder := some 1 }
  , { key := some "FAIL", display := none, value := some "Fail"
    , description := none, color := none, icon := none, sortOrder := some 2 } ]

/-- A reference carrying inline values and no id (embedded). -/
def sampleEmbeddedReference : ExtReference :=
  { id := none, name := some "Status", validationType := none
  , values := some sampleRefValues }

/-- A select field carrying the embedded reference. -/
def sampleStatusField : ExtField :=
  { fieldId := some "STATUS", id := none, name := some "Status"
  , component := some "SelectField", sequence := some 10, validation := none
  , isReadOnly := none, isDisplayed := none, ui := none, help := none
  , description := none, displayLogic := none
  , reference := some sampleEmbeddedReference }

/-- A reference carrying inline values and its own external id. -/
def sampleExternalReference : ExtReference :=
  { id := some "COLOR_REF", name := some "Colors", validationType := some "LIST"
  , values := some sampleRefValues }

/-- A field whose reference carries its own id. -/
def sampleColorField : ExtField :=
  { fieldId := some "COLOR", id := none, name := some "Color"
  , component := some "SelectField", sequence := some 20, validation := none
  , isReadOnly := none, isDisplayed := none, ui := none, help := none
  , description := none, displayLogic := none
  , reference := some sampleExternalReference }

/-- A reference carrying its own external id but no inline `values` array
(the pointer shape of an external reference). -/
def sampleIdOnlyReference : ExtReference :=
  { id := some "COLOR_REF", name := some "Colors", validationType := some "LIST"
  , values := none }

/-- A field whose reference carries its own id and no values array. -/
def sampleIdOnlyRefField : ExtField :=
  { fieldId := some "COLOR", id := none, name := some "Color"
  , component := some "SelectField", sequence := some 20, validation := none
  , isReadOnly := none, isDisplayed := none, ui := none, help := none
  , description := none, displayLogic := none
  , reference := some sampleIdOnlyReference }

/-- A field with no `fieldId` and no `id` at all. -/
def sampleNoIdField : ExtField :=
  { fieldId := none, id := none, name := some "Anonymous"
  , component := some "TextField", sequence := none, validation := none
  , isReadOnly := none, isDisplayed := none, ui := none, help := none
  , description := none, displayLogic := none, reference := none }

/-- A well-formed tab holding the embedded-reference sample field. -/
def sampleTab : ExtTab :=
  { tabId := some "TAB1", id := none, name := some "Main", description := none
  , sequence := some 10, tabLevel := none, isReadOnly := none
  , isSingleRow := none, fields := some [sampleStatusField] }

/-- A well-formed external window document. -/
def sampleWindow : ExtWindow :=
  { windowId := some "EQUIP_INSPECTION", id := none
  , name := some "Equipment Inspection", description := none
  , windowType := none, tabs := some [sampleTab] }

/-- A structurally well-formed window whose only field lacks any id. -/
def noFieldIdWindow : ExtWindow :=
  { windowId := some "W1", id := none, name := some "NoFieldId"
  , description := none, windowType := none
  , tabs := some
      [ { tabId := some "T1", id := none, name := some "T", description := none
        , sequence := none, tabLevel := none, isReadOnly := none
        , isSingleRow := none, fields := some [sampleNoIdField] } ] }

/-- A document with only a `name`: no `windowId`, no `id`. -/
def siteAuditDoc : ExtWindow :=
  { windowId := none, id := none, name := some "Site Audit"
  , description := none, windowType := none, tabs := some [sampleTab] }

/-- A document lacking the `tabs` array. -/
def noTabsDoc : ExtWindow :=
  { windowId := some "W2", id := none, name := some "NoTabs"
  , description := none, windowType := none, tabs := none }

/-- A small adapted window used to populate sample caches. -/
def sampleAdWindow : AdWindow :=
  { id := some "W", name := some "W", description := none
  , windowType := "Transaction", tabs := [] }

/-- Converted reference values used to populate sample caches. -/
def sampleAdValues : List AdRefValue :=
  [ { key := some "OK", value := some "Pass", description := none
    , color := some "#00FF00", icon := none, sortOrder := some 1 } ]

/-- A sample External-provider cache holding one window and one reference
entry, both captured at time 100. -/
def sampleCache : ExternalMetadataProvider.ExtCache :=
  { winEntries := [("window_W", (100, sampleAdWindow))]
  , refEntries := [("ref_R", (100, sampleAdValues))] }

/-! ## Helper lemmas about the JS-map and string models -/

theorem strEndsWith_iff (s post : String) :
    strEndsWith s post = true ↔ ∃ p : String, s = p ++ post := by
  unfold strEndsWith
  rw [List.isSuffixOf_iff_suffix]
  constructor
  · rintro ⟨t, ht⟩
    exact ⟨⟨t⟩, String.ext (by simp [← ht])⟩
  · rintro ⟨p, rfl⟩
    refine ⟨p.data, ?_⟩
    simp [String.data_append]

theorem lookup_map_overwrite {κ α : Type} [BEq κ] [LawfulBEq κ]
    (m : List (κ × α)) (k : κ) (v : α) (h : (m.lookup k).isSome = true) :
    (m.map fun p => if p.1 == k then (k, v) else p).lookup k = some v := by
  induction m with
  | nil => simp at h
  | cons p ps ih =>
    rcases p with ⟨a, b⟩
    by_cases hak : a = k
    · subst hak
      simp [List.lookup_cons]
    · have h1 : (a == k) = false := beq_false_of_ne hak
      have h2 : (k == a) = false := beq_false_of_ne (Ne.symm hak)
      have h' : (ps.lookup k).isSome = true := by
        simpa [List.lookup_cons, h2] using h
      simpa [List.lookup_cons, h1, h2] using ih h'

theorem lookup_map_overwrite_ne {κ α : Type} [BEq κ] [LawfulBEq κ]
    (m : List (κ × α)) (k k' : κ) (v : α) (hne : k' ≠ k) :
    (m.map fun p => if p.1 == k then (k, v) else p).lookup k' = m.lookup k' := by
  induction m with
  | nil => simp
  | cons p ps ih =>
    rcases p with ⟨a, b⟩
    by_cases hak : a = k
    · subst hak
      have h2 : (k' == a) = false := beq_false_of_ne hne
      simp [List.lookup_cons, h2, ih]
    · have h1 : (a == k) = false := beq_false_of_ne hak
      cases hka : (k' == a) <;> simp [List.lookup_cons, h1, hka, ih]

theorem mapGet_mapSet_self {κ α : Type} [BEq κ] [LawfulBEq κ]
    (m : List (κ × α)) (k : κ) (v : α) :
    mapGet (mapSet m k v) k = some v := by
  unfold mapGet mapSet
  by_cases h : (m.lookup k).isSome = true
  · simp only [h, if_true]
    exact lookup_map_overwrite m k v h
  · have h0 : m.lookup k = none := by
      cases hm : m.lookup k <;> simp_all
    simp only [h0, Option.isSome_none, Bool.false_eq_true, if_false]
    rw [List.lookup_append]
    simp [h0, List.lookup_cons]

theorem mapGet_mapSet_ne {κ α : Type} [BEq κ] [LawfulBEq κ]
    (m : List (κ × α)) (k k' : κ) (v : α) (hne : k' ≠ k) :
    mapGet (mapSet m k v) k' = mapGet m k' := by
  unfold mapGet mapSet
  by_cases h : (m.lookup k).isSome = true
  · simp only [h, if_true]
    exact lookup_map_overwrite_ne m k k' v hne
  · have h0 : m.lookup k = none := by
      cases hm : m.lookup k <;> simp_all
    simp only [h0, Option.isSome_none, Bool.false_eq_true, if_false]
    rw [List.lookup_append]
    have h2 : (k' == k) = false := beq_false_of_ne hne
    simp [List.lookup_cons, h2]

theorem mapGet_mapSet_isSome {κ α : Type} [BEq κ] [LawfulBEq κ]
    (m : List (κ × α)) (k k' : κ) (v : α)
    (h : (mapGet (mapSet m k v) k').isSome = true) :
    k' = k ∨ (mapGet m k').isSome = true := by
  by_cases hk : k' = k
  · exact Or.inl hk
  · right
    rwa [mapGet_mapSet_ne m k k' v hk] at h

theorem mapSet_length_pos {κ α : Type} [BEq κ]
    (m : List (κ × α)) (k : κ) (v : α) : 0 < (mapSet m k v).length := by
  unfold mapSet
  by_cases h : (m.lookup k).isSome = true
  · simp only [h, if_true]
    cases m with
    | nil => simp at h
    | cons p ps => simp
  · have h0 : (m.lookup k).isSome = false := by
      cases hm : (m.lookup k).isSome <;> simp_all
    simp [h0]

/-! ## Lemmas about the adapter -/

theorem adaptReference_fst_store_indep (r : Option ExtReference)
    (fid : Option String) (s s' : MetadataAdapter.Store) :
    (MetadataAdapter.adaptReference r fid s).1 =
      (MetadataAdapter.adaptReference r fid s').1 := by
  rcases r with _ | ref
  · rfl
  · rcases hv : ref.values with _ | vals
    · simp [MetadataAdapter.adaptReference, hv]
    · by_cases hid : truthyStr ref.id <;>
        simp [MetadataAdapter.adaptReference, hv, hid]

theorem adaptField_fst_store_indep (f : ExtField) (s s' : MetadataAdapter.Store) :
    (MetadataAdapter.adaptField f s).1 = (MetadataAdapter.adaptField f s').1 := by
  simp only [MetadataAdapter.adaptField]
  rw [adaptReference_fst_store_indep f.reference (jsOrOpt f.fieldId f.id) s s']

theorem adaptFields_fst (fs : List ExtField) (s : MetadataAdapter.Store) :
    (MetadataAdapter.adaptFields fs s).1 =
      fs.map (fun f => (MetadataAdapter.adaptField f []).1) := by
  induction fs generalizing s with
  | nil => rfl
  | cons f fs ih =>
    simp only [MetadataAdapter.adaptFields, List.map_cons]
    rw [ih, adaptField_fst_store_indep f s []]

theorem adaptReference_store_keys (r : Option ExtReference) (fid : Option String)
    (s : MetadataAdapter.Store) (rid : String)
    (h : (mapGet (MetadataAdapter.adaptReference r fid s).2 rid).isSome = true) :
    (mapGet s rid).isSome = true ∨
      ∃ ref vals, r = some ref ∧ ref.values = some vals ∧
        truthyStr ref.id = false ∧ rid = jsStr fid ++ "_EMBEDDED_REF" := by
  rcases r with _ | ref
  · exact Or.inl h
  · rcases hv : ref.values with _ | vals
    · left
      simpa [MetadataAdapter.adaptReference, hv] using h
    · by_cases hid : truthyStr ref.id
      · left
        simpa [MetadataAdapter.adaptReference, hv, hid] using h
      · have hid' : truthyStr ref.id = false := by
          cases hb : truthyStr ref.id <;> simp_all
        simp only [MetadataAdapter.adaptReference, hv] at h
        simp only [hid', Bool.false_eq_true, if_false] at h
        rcases mapGet_mapSet_isSome s (jsStr fid ++ "_EMBEDDED_REF") rid
            (vals.map MetadataAdapter.convertRefValue) h with heq | hold
        · exact Or.inr ⟨ref, vals, rfl, hv, hid', heq⟩
        · exact Or.inl hold

theorem adaptField_store_keys (f : ExtField) (s : MetadataAdapter.Store)
    (rid : String)
    (h : (mapGet (MetadataAdapter.adaptField f s).2 rid).isSome = true) :
    (mapGet s rid).isSome = true ∨ fieldGeneratesEmbeddedId f rid := by
  simp only [MetadataAdapter.adaptField] at h
  rcases adaptReference_store_keys f.reference (jsOrOpt f.fieldId f.id) s rid h with
    hold | ⟨ref, vals, hr, hv, hid, hrid⟩
  · exact Or.inl hold
  · exact Or.inr ⟨ref, vals, hr, hv, hid, hrid⟩

theorem adaptFields_store_keys (fs : List ExtField) (s : MetadataAdapter.Store)
    (rid : String)
    (h : (mapGet (MetadataAdapter.adaptFields fs s).2 rid).isSome = true) :
    (mapGet s rid).isSome = true ∨ ∃ f ∈ fs, fieldGeneratesEmbeddedId f rid := by
  induction fs generalizing s with
  | nil => exact Or.inl h
  | cons f fs ih =>
    simp only [MetadataAdapter.adaptFields] at h
    rcases ih (MetadataAdapter.adaptField f s).2 h with hmid | ⟨g, hg, hgen⟩
    · rcases adaptField_store_keys f s rid hmid with hold | hgen
      · exact Or.inl hold
      · exact Or.inr ⟨f, List.mem_cons_self f fs, hgen⟩
    · exact Or.inr ⟨g, List.mem_cons_of_mem f hg, hgen⟩

theorem adaptTab_ok_elim (t : ExtTab) (s : MetadataAdapter.Store)
    (atab : AdTab) (s' : MetadataAdapter.Store)
    (h : MetadataAdapter.adaptTab t s = .ok (atab, s')) :
    ∃ fs, t.fields = some fs ∧
      atab.fields = (MetadataAdapter.adaptFields fs s).1 ∧
      s' = (MetadataAdapter.adaptFields fs s).2 := by
  rcases hf : t.fields with _ | fs
  · simp [MetadataAdapter.adaptTab, hf] at h
  · refine ⟨fs, rfl, ?_, ?_⟩ <;>
    · simp only [MetadataAdapter.adaptTab, hf, Except.ok.injEq, Prod.mk.injEq] at h
      rcases h with ⟨hw, hs⟩
      subst hs
      simp [← hw]

theorem adaptTab_error_elim (t : ExtTab) (s : MetadataAdapter.Store)
    (h : t.fields = none) :
    MetadataAdapter.adaptTab t s =
      .error (.typeError "externalTab.fields is undefined") := by
  simp [MetadataAdapter.adaptTab, h]

theorem adaptTabs_ok_length (ts : List ExtTab) (s : MetadataAdapter.Store)
    (ats : List AdTab) (s' : MetadataAdapter.Store)
    (h : MetadataAdapter.adaptTabs ts s = .ok (ats, s')) :
    ats.length = ts.length := by
  induction ts generalizing s ats s' with
  | nil =>
    simp only [MetadataAdapter.adaptTabs, Except.ok.injEq, Prod.mk.injEq] at h
    simp [← h.1]
  | cons t ts ih =>
    rcases ht : MetadataAdapter.adaptTab t s with e | ⟨atab, s1⟩
    · simp [MetadataAdapter.adaptTabs, ht, Except.bind] at h
    · rcases hts : MetadataAdapter.adaptTabs ts s1 with e | ⟨atabs, s2⟩
      · simp [MetadataAdapter.adaptTabs, ht, hts, Except.bind] at h
      · simp only [MetadataAdapter.adaptTabs, ht, hts, Except.bind,
          Except.ok.injEq, Prod.mk.injEq] at h
        rcases h with ⟨hats, _⟩
        rw [← hats]
        simp [ih s1 atabs s2 hts]

theorem adaptTabs_ok_pointwise (ts : List ExtTab) (s : MetadataAdapter.Store)
    (ats : List AdTab) (s' : MetadataAdapter.Store)
    (h : MetadataAdapter.adaptTabs ts s = .ok (ats, s')) :
    ∀ i (hi : i < ts.length), ∃ fs, (ts.get ⟨i, hi⟩).fields = some fs ∧
      ∃ hi' : i < ats.length,
        (ats.get ⟨i, hi'⟩).fields =
          fs.map (fun f => (MetadataAdapter.adaptField f []).1) := by
  induction ts generalizing s ats s' with
  | nil => intro i hi; exact absurd hi (by simp)
  | cons t ts ih =>
    rcases ht : MetadataAdapter.adaptTab t s with e | ⟨atab, s1⟩
    · simp [MetadataAdapter.adaptTabs, ht, Except.bind] at h
    · rcases hts : MetadataAdapter.adaptTabs ts s1 with e | ⟨atabs, s2⟩
      · simp [MetadataAdapter.adaptTabs, ht, hts, Except.bind] at h
      · simp only [MetadataAdapter.adaptTabs, ht, hts, Except.bind,
          Except.ok.injEq, Prod.mk.injEq] at h
        rcases h with ⟨hats, _⟩
        subst hats
        intro i hi
        cases i with
        | zero =>
          rcases adaptTab_ok_elim t s atab s1 ht with ⟨fs, hf, hfields, _⟩
          refine ⟨fs, hf, by simp, ?_⟩
          simpa [hfields] using adaptFields_fst fs s
        | succ j =>
          have hj : j < ts.length := by simpa using hi
          rcases ih s1 atabs s2 hts j hj with ⟨fs, hf, hj', hfields⟩
          exact ⟨fs, hf, by simpa using hj', hfields⟩

theorem adaptTabs_store_keys (ts : List ExtTab) (s : MetadataAdapter.Store)
    (ats : List AdTab) (s' : MetadataAdapter.Store)
    (h : MetadataAdapter.adaptTabs ts s = .ok (ats, s')) (rid : String)
    (hk : (mapGet s' rid).isSome = true) :
    (mapGet s rid).isSome = true ∨
      ∃ t ∈ ts, ∃ fs, t.fields = some fs ∧
        ∃ f ∈ fs, fieldGeneratesEmbeddedId f rid := by
  induction ts generalizing s ats s' with
  | nil =>
    simp only [MetadataAdapter.adaptTabs, Except.ok.injEq, Prod.mk.injEq] at h
    left
    rw [← h.2] at hk
    exact hk
  | cons t ts ih =>
    rcases ht : MetadataAdapter.adaptTab t s with e | ⟨atab, s1⟩
    · simp [MetadataAdapter.adaptTabs, ht, Except.bind] at h
    · rcases hts : MetadataAdapter.adaptTabs ts s1 with e | ⟨atabs, s2⟩
      · simp [MetadataAdapter.adaptTabs, ht, hts, Except.bind] at h
      · simp only [MetadataAdapter.adaptTabs, ht, hts, Except.bind,
          Except.ok.injEq, Prod.mk.injEq] at h
        rcases h with ⟨_, hs2⟩
        subst hs2
        rcases ih s1 atabs s2 hts hk with hmid | ⟨t2, ht2, fs2, hf2, f2, hfm2, hgen2⟩
        · rcases adaptTab_ok_elim t s atab s1 ht with ⟨fs, hf, _, hs1⟩
          rw [hs1] at hmid
          rcases adaptFields_store_keys fs s rid hmid with hold | ⟨f, hfm, hgen⟩
          · exact Or.inl hold
          · exact Or.inr ⟨t, List.mem_cons_self t ts, fs, hf, f, hfm, hgen⟩
        · exact Or.inr ⟨t2, List.mem_cons_of_mem t ht2, fs2, hf2, f2, hfm2, hgen2⟩

theorem adaptWindowDefinition_store_indep (w : ExtWindow)
    (s1 s2 : MetadataAdapter.Store) :
    MetadataAdapter.adaptWindowDefinition w s1 =
      MetadataAdapter.adaptWindowDefinition w s2 := rfl

theorem adaptWindowDefinition_ok_elim (w : ExtWindow)
    (s : MetadataAdapter.Store) (res : AdWindow) (s' : MetadataAdapter.Store)
    (h : MetadataAdapter.adaptWindowDefinition w s = .ok (res, s')) :
    ∃ ts, w.tabs = some ts ∧
      MetadataAdapter.adaptTabs ts [] = .ok (res.tabs, s') := by
  rcases ht : w.tabs with _ | ts
  · simp [MetadataAdapter.adaptWindowDefinition, ht] at h
  · rcases ha : MetadataAdapter.adaptTabs ts [] with e | ⟨atabs, st⟩
    · simp [MetadataAdapter.adaptWindowDefinition, ht, ha] at h
    · refine ⟨ts, rfl, ?_⟩
      simp only [MetadataAdapter.adaptWindowDefinition, ht, ha,
        Except.ok.injEq, Prod.mk.injEq] at h
      rcases h with ⟨hw, hs⟩
      subst hs
      rw [ha, ← hw]

theorem adaptWindowDefinition_error_elim (w : ExtWindow)
    (s : MetadataAdapter.Store) (h : w.tabs = none) :
    MetadataAdapter.adaptWindowDefinition w s =
      .error (.typeError "externalWindow.tabs is undefined") := by
  simp [MetadataAdapter.adaptWindowDefinition, h]

theorem adaptWindowDefinition_store_keys (w : ExtWindow)
    (s : MetadataAdapter.Store) (res : AdWindow) (s' : MetadataAdapter.Store)
    (h : MetadataAdapter.adaptWindowDefinition w s = .ok (res, s'))
    (rid : String) (hk : (mapGet s' rid).isSome = true) :
    windowGeneratesEmbeddedId w rid := by
  rcases adaptWindowDefinition_ok_elim w s res s' h with ⟨ts, hts, ha⟩
  rcases adaptTabs_store_keys ts [] res.tabs s' ha rid hk with
    h0 | ⟨t, htm, fs, hf, f, hfm, hgen⟩
  · simp [mapGet] at h0
  · exact ⟨ts, hts, t, htm, fs, hf, f, hfm, hgen⟩

theorem adaptTabs_ok_getElem (ts : List ExtTab) (s : MetadataAdapter.Store)
    (ats : List AdTab) (s' : MetadataAdapter.Store)
    (h : MetadataAdapter.adaptTabs ts s = .ok (ats, s')) :
    ∀ (i : Nat) (t : ExtTab), ts[i]? = some t →
      ∃ fs atab, t.fields = some fs ∧ ats[i]? = some atab ∧
        atab.fields = fs.map (fun f => (MetadataAdapter.adaptField f []).1) := by
  induction ts generalizing s ats s' with
  | nil => intro i t hit; simp at hit
  | cons t0 ts ih =>
    rcases ht : MetadataAdapter.adaptTab t0 s with e | ⟨atab0, s1⟩
    · simp [MetadataAdapter.adaptTabs, ht] at h
    · rcases hts : MetadataAdapter.adaptTabs ts s1 with e | ⟨atabs, s2⟩
      · simp [MetadataAdapter.adaptTabs, ht, hts] at h
      · simp only [MetadataAdapter.adaptTabs, ht, hts,
          Except.ok.injEq, Prod.mk.injEq] at h
        rcases h with ⟨hats, hs2⟩
        subst hs2
        subst hats
        intro i t hit
        cases i with
        | zero =>
          simp only [List.getElem?_cons_zero, Option.some.injEq] at hit
          subst hit
          rcases adaptTab_ok_elim t0 s atab0 s1 ht with ⟨fs, hf, hfields, _⟩
          refine ⟨fs, atab0, hf, by simp, ?_⟩
          rw [hfields, adaptFields_fst fs s]
        | succ j =>
          simp only [List.getElem?_cons_succ] at hit
          rcases ih s1 atabs s2 hts j t hit with ⟨fs, atab, hf, hat, hfields⟩
          exact ⟨fs, atab, hf, by simpa using hat, hfields⟩

/-! ## Claim theorems -/

/-- C1: for every field with inline reference values and no explicit
(truthy) reference id, the adapter generates the reference id
`<fieldId>_EMBEDDED_REF`; and `isEmbeddedReference` returns true exactly
for the ids of that generated form `<fieldId> ++ "_EMBEDDED_REF"` and
false for every other id. -/
theorem embedded_reference_id_generation :
    (∀ (f : ExtField) (ref : ExtReference) (vals : List ExtRefValue)
       (fid : String) (store : MetadataAdapter.Store),
      f.reference = some ref → ref.values = some vals →
      truthyStr ref.id = false → f.fieldId = some fid → fid ≠ "" →
      ∃ aref, ((MetadataAdapter.adaptField f store).1).reference = some aref ∧
        aref.id = fid ++ "_EMBEDDED_REF") ∧
    (∀ rid : String, MetadataAdapter.isEmbeddedReference rid = true ↔
      ∃ fid : String, rid = fid ++ "_EMBEDDED_REF") := by
  constructor
  · intro f ref vals fid store hr hv hid hfid hne
    have hof : jsOrOpt f.fieldId f.id = some fid := by
      simp [jsOrOpt, truthyStr, hfid, hne]
    simp only [MetadataAdapter.adaptField]
    rw [hr, hof]
    simp [MetadataAdapter.adaptReference, hv, hid, jsStr]
  · intro rid
    exact strEndsWith_iff rid "_EMBEDDED_REF"

/-- Witness for C1 at the sample field carrying an embedded reference. -/
theorem embedded_reference_id_generation_witness :
    (∃ aref,
       ((MetadataAdapter.adaptField sampleStatusField []).1).reference = some aref ∧
       aref.id = "STATUS" ++ "_EMBEDDED_REF") ∧
    (MetadataAdapter.isEmbeddedReference "STATUS_EMBEDDED_REF" = true ↔
       ∃ fid : String, "STATUS_EMBEDDED_REF" = fid ++ "_EMBEDDED_REF") :=
  ⟨embedded_reference_id_generation.1 sampleStatusField sampleEmbeddedReference
      sampleRefValues "STATUS" [] rfl rfl rfl rfl (by decide),
   embedded_reference_id_generation.2 "STATUS_EMBEDDED_REF"⟩

/-- Counterexample to C8: a field whose reference carries its own id
COLOR_REF but no inline `values` array has its reference dropped entirely
by the adapter (`adaptReference` returns undefined when `values` is
missing), so the id is not reused — contradicting the claim's
"not dropped". -/
theorem external_reference_without_values_dropped :
    sampleIdOnlyRefField.reference = some sampleIdOnlyReference ∧
    sampleIdOnlyReference.id = some "COLOR_REF" ∧
    ((MetadataAdapter.adaptField sampleIdOnlyRefField []).1).reference = none :=
  ⟨rfl, rfl, rfl⟩

/-- Amended C8: when the external field reference carries its own (truthy)
id *and* an inline values array, that id is reused verbatim in the adapted
reference — not replaced by a synthetic id, the reference kept and the
embedded-reference store untouched; but a reference carrying its own id
with no values array is dropped entirely (the adapted field's reference is
undefined, the store again untouched). -/
theorem external_reference_id_reused :
    (∀ (f : ExtField) (ref : ExtReference) (vals : List ExtRefValue)
       (rid : String) (store : MetadataAdapter.Store),
      f.reference = some ref → ref.values = some vals →
      ref.id = some rid → rid ≠ "" →
      ∃ aref, ((MetadataAdapter.adaptField f store).1).reference = some aref ∧
        aref.id = rid ∧ (MetadataAdapter.adaptField f store).2 = store) ∧
    (∀ (f : ExtField) (ref : ExtReference) (store : MetadataAdapter.Store),
      f.reference = some ref → ref.values = none →
      ((MetadataAdapter.adaptField f store).1).reference = none ∧
      (MetadataAdapter.adaptField f store).2 = store) := by
  constructor
  · intro f ref vals rid store hr hv hid hne
    have htr : truthyStr ref.id = true := by simp [truthyStr, hid, hne]
    simp only [MetadataAdapter.adaptField]
    rw [hr]
    simp [MetadataAdapter.adaptReference, hv, htr, hid, truthyStr, hne]
  · intro f ref store hr hv
    constructor <;>
    · simp only [MetadataAdapter.adaptField]
      rw [hr]
      simp [MetadataAdapter.adaptReference, hv]

/-- Witness for the amended C8: the sample field whose reference carries
id COLOR_REF with inline values keeps that id verbatim, and the sample
field whose reference carries the same id without values loses its
reference. -/
theorem external_reference_id_reused_witness :
    (∃ aref,
       ((MetadataAdapter.adaptField sampleColorField []).1).reference = some aref ∧
       aref.id = "COLOR_REF" ∧
       (MetadataAdapter.adaptField sampleColorField []).2 = []) ∧
    ((MetadataAdapter.adaptField sampleIdOnlyRefField []).1).reference = none ∧
    (MetadataAdapter.adaptField sampleIdOnlyRefField []).2 = [] :=
  ⟨external_reference_id_reused.1 sampleColorField sampleExternalReference
      sampleRefValues "COLOR_REF" [] rfl rfl rfl (by decide),
   (external_reference_id_reused.2 sampleIdOnlyRefField sampleIdOnlyReference []
      rfl rfl).1,
   (external_reference_id_reused.2 sampleIdOnlyRefField sampleIdOnlyReference []
      rfl rfl).2⟩

/-- C9: for every valid external document the adapted window has exactly as
many tabs as the document, and within each tab the adapted field at
position j is the adaptation of the external field at position j (field
order is preserved). -/
theorem adapt_preserves_tab_count_and_field_order :
    ∀ (w : ExtWindow) (ts : List ExtTab)
      (store store' : MetadataAdapter.Store) (res : AdWindow),
      w.tabs = some ts →
      MetadataAdapter.adaptWindowDefinition w store = .ok (res, store') →
      res.tabs.length = ts.length ∧
      ∀ (i : Nat) (t : ExtTab), ts[i]? = some t →
        ∀ fs, t.fields = some fs →
          ∃ atab, res.tabs[i]? = some atab ∧
            atab.fields.length = fs.length ∧
            ∀ (j : Nat) (f : ExtField), fs[j]? = some f →
              atab.fields[j]? = some ((MetadataAdapter.adaptField f []).1) := by
  intro w ts store store' res hts h
  rcases adaptWindowDefinition_ok_elim w store res store' h with ⟨ts2, hts2, ha⟩
  rw [hts] at hts2
  rcases hts2 with ⟨⟩
  constructor
  · exact adaptTabs_ok_length ts [] res.tabs store' ha
  · intro i t hit fs hf
    rcases adaptTabs_ok_getElem ts [] res.tabs store' ha i t hit with
      ⟨fs2, atab, hf2, hat, hfields⟩
    rw [hf] at hf2
    rcases hf2 with ⟨⟩
    refine ⟨atab, hat, ?_, ?_⟩
    · simp [hfields]
    · intro j f hjf
      rw [hfields, List.getElem?_map, hjf]
      rfl

/-- Witness for C9 at the sample document (one tab, one field). -/
theorem adapt_preserves_tab_count_and_field_order_witness :
    ∃ res store',
      MetadataAdapter.adaptWindowDefinition sampleWindow [] = .ok (res, store') ∧
      res.tabs.length = [sampleTab].length :=
  ⟨_, _, rfl,
    (adapt_preserves_tab_count_and_field_order sampleWindow [sampleTab] [] _ _
      rfl rfl).1⟩

/-- C7: `adaptWindowDefinition` clears the embedded-reference store before
processing, so its result never depends on the previous store; every id
stored after adapting document D is an embedded-reference id generated
from some field of D; and after `clearEmbeddedReferences`, every id
resolves to not-found. -/
theorem adapter_clears_state_per_document :
    (∀ (w : ExtWindow) (s1 s2 : MetadataAdapter.Store),
       MetadataAdapter.adaptWindowDefinition w s1 =
         MetadataAdapter.adaptWindowDefinition w s2) ∧
    (∀ (w : ExtWindow) (s : MetadataAdapter.Store) (res : AdWindow)
       (store' : MetadataAdapter.Store),
       MetadataAdapter.adaptWindowDefinition w s = .ok (res, store') →
       ∀ rid, (mapGet store' rid).isSome = true →
         windowGeneratesEmbeddedId w rid) ∧
    (∀ (s : MetadataAdapter.Store) (rid : String),
       MetadataAdapter.getEmbeddedReferenceValues
         (MetadataAdapter.clearEmbeddedReferences s) rid = none) :=
  ⟨adaptWindowDefinition_store_indep,
   fun w s res store' h rid hk =>
     adaptWindowDefinition_store_keys w s res store' h rid hk,
   fun _ _ => rfl⟩

/-- Witness for C7: applying the theorem at the sample document shows the
single stored id STATUS_EMBEDDED_REF is generated by a field of the
document, and a cleared store resolves a previously stored id to
not-found. -/
theorem adapter_clears_state_per_document_witness :
    windowGeneratesEmbeddedId sampleWindow "STATUS_EMBEDDED_REF" ∧
    MetadataAdapter.getEmbeddedReferenceValues
      (MetadataAdapter.clearEmbeddedReferences [("STATUS_EMBEDDED_REF", [])])
      "STATUS_EMBEDDED_REF" = none :=
  ⟨adapter_clears_state_per_document.2.1 sampleWindow [] _ _ rfl
      "STATUS_EMBEDDED_REF" (by decide),
   adapter_clears_state_per_document.2.2 [("STATUS_EMBEDDED_REF", [])]
      "STATUS_EMBEDDED_REF"⟩

/-- Counterexample to C2: `adaptWindowDefinition` does not fail fast on a
document containing a field with no id — it succeeds and produces an
adapted field whose `id` and `fieldId` are both undefined. -/
theorem adapter_accepts_field_without_id :
    (MetadataAdapter.adaptWindowDefinition noFieldIdWindow []).isOk = true ∧
    ∃ res store' atab af,
      MetadataAdapter.adaptWindowDefinition noFieldIdWindow [] =
        .ok (res, store') ∧
      res.tabs = [atab] ∧ atab.fields = [af] ∧
      af.id = none ∧ af.fieldId = none :=
  ⟨by decide, _, _, _, _, rfl, rfl, rfl, rfl, rfl⟩

/-- Amended C2: the adapter itself performs no structural validation.  A
document missing its tabs array fails with a raw `TypeError` carrying no
tab or field index; a field with no id is adapted with an undefined id
rather than rejected; and tabs are never silently dropped (on success the
adapted window has one tab per external tab).  Index-identifying
validation happens earlier, in
`JSONFileDataProvider.validateTemplateStructure`. -/
theorem adapter_no_validation_behavior :
    (∀ (w : ExtWindow) (store : MetadataAdapter.Store), w.tabs = none →
       MetadataAdapter.adaptWindowDefinition w store =
         .error (.typeError "externalWindow.tabs is undefined")) ∧
    (∀ (f : ExtField) (store : MetadataAdapter.Store),
       f.fieldId = none → f.id = none →
       ((MetadataAdapter.adaptField f store).1).id = none ∧
       ((MetadataAdapter.adaptField f store).1).fieldId = none) ∧
    (∀ (w : ExtWindow) (ts : List ExtTab)
       (store store' : MetadataAdapter.Store) (res : AdWindow),
       w.tabs = some ts →
       MetadataAdapter.adaptWindowDefinition w store = .ok (res, store') →
       res.tabs.length = ts.length) := by
  refine ⟨?_, ?_, ?_⟩
  · intro w store h
    exact adaptWindowDefinition_error_elim w store h
  · intro f store h1 h2
    constructor <;> simp [MetadataAdapter.adaptField, jsOrOpt, h1, h2, truthyStr]
  · intro w ts store store' res hts h
    rcases adaptWindowDefinition_ok_elim w store res store' h with ⟨ts2, hts2, ha⟩
    rw [hts] at hts2
    rcases hts2 with ⟨⟩
    exact adaptTabs_ok_length ts [] res.tabs store' ha

/-- Witness for the amended C2 at concrete malformed documents. -/
theorem adapter_no_validation_behavior_witness :
    MetadataAdapter.adaptWindowDefinition noTabsDoc [] =
      .error (.typeError "externalWindow.tabs is undefined") ∧
    ((MetadataAdapter.adaptField sampleNoIdField []).1).id = none ∧
    ∃ res store',
      MetadataAdapter.adaptWindowDefinition noFieldIdWindow [] =
        .ok (res, store') ∧ res.tabs.length = 1 :=
  ⟨adapter_no_validation_behavior.1 noTabsDoc [] rfl,
   (adapter_no_validation_behavior.2.1 sampleNoIdField [] rfl rfl).1,
   ⟨_, _, rfl,
     adapter_no_validation_behavior.2.2 noFieldIdWindow _ [] _ _ rfl rfl⟩⟩

/-! ## Lemmas about the import pipeline -/

open JSONFileDataProvider

theorem import_validation_error_result (st : ProviderState) (uri : String)
    (t : ExtWindow) (e : String)
    (h : (validateTemplateStructure t).2 = .error e) :
    (importJSONTemplate st uri t).2 =
      .error ("Failed to import JSON template: " ++ e) ∧
    (importJSONTemplate st uri t).1.windowData = st.windowData ∧
    (importJSONTemplate st uri t).1.importDiagnostics =
      [ ⟨"import_start", true, "Starting JSON template import from: " ++ uri⟩
      , ⟨"file_access_check", true, "Checking file accessibility: " ++ uri⟩
      , ⟨"content_reading", true, "Using provided JSON content"⟩
      , ⟨"json_parsing", true, "Starting JSON parsing"⟩
      , ⟨"json_parsing", true, "JSON parsing successful"⟩ ] ++
      (validateTemplateStructure t).1 ++ [failDiag e] := by
  refine ⟨?_, ?_, ?_⟩ <;> simp [importJSONTemplate, h]

theorem validateTemplateStructure_no_tabs (t : ExtWindow) (h : t.tabs = none) :
    ∃ e msg, (validateTemplateStructure t).2 = .error e ∧
      (validateTemplateStructure t).1 =
        [ ⟨"structure_validation", true, "Starting template structure validation"⟩
        , ⟨"structure_validation", false, msg⟩ ] := by
  by_cases hid : (truthyStr t.windowId || truthyStr t.id) = true
  · by_cases hname : truthyStr t.name = true
    · refine ⟨"Template missing required tabs array",
        "Missing or invalid tabs array", ?_, ?_⟩ <;>
        simp [validateTemplateStructure, hid, hname, h]
    · refine ⟨"Template missing required name field",
        "Missing required name field", ?_, ?_⟩ <;>
        simp [validateTemplateStructure, hid, hname, h]
  · refine ⟨"Template missing required windowId or id field",
      "Missing required windowId or id field", ?_, ?_⟩ <;>
      simp [validateTemplateStructure, hid, h]

theorem importJSONTemplate_cases (st : ProviderState) (uri : String)
    (t : ExtWindow) :
    (∃ e, (importJSONTemplate st uri t).2 =
        .error ("Failed to import JSON template: " ++ e) ∧
      (importJSONTemplate st uri t).1.windowData = st.windowData) ∨
    (∃ aw, (importJSONTemplate st uri t).2 = .ok true ∧
      (importJSONTemplate st uri t).1.windowData =
        mapSet st.windowData aw.id aw) := by
  rcases hv : (validateTemplateStructure t).2 with e | u
  · left
    exact ⟨e, (import_validation_error_result st uri t e hv).1,
      (import_validation_error_result st uri t e hv).2.1⟩
  · cases u
    rcases hw : (extractAndAnalyzeWindowId t).2 with e | wid
    · left
      refine ⟨e, ?_, ?_⟩ <;> simp [importJSONTemplate, hv, hw]
    · rcases ha : (adaptTemplateToADFormat t).2 with e | aw
      · left
        refine ⟨e, ?_, ?_⟩ <;> simp [importJSONTemplate, hv, hw, ha]
      · right
        refine ⟨aw, ?_, ?_⟩ <;> simp [importJSONTemplate, hv, hw, ha]

theorem import_result_state_indep (st : ProviderState) (uri : String)
    (t : ExtWindow) :
    (importJSONTemplate st uri t).2 = (importJSONTemplate initialState "" t).2 := by
  rcases hv : (validateTemplateStructure t).2 with e | u
  · simp [importJSONTemplate, hv]
  · cases u
    rcases hw : (extractAndAnalyzeWindowId t).2 with e | wid
    · simp [importJSONTemplate, hv, hw]
    · rcases ha : (adaptTemplateToADFormat t).2 with e | aw
      · simp [importJSONTemplate, hv, hw, ha]
      · simp [importJSONTemplate, hv, hw, ha]

theorem isConnected_step_import (st : ProviderState) (uri : String)
    (t : ExtWindow) :
    isConnected ((importJSONTemplate st uri t).1) =
      (isConnected st || importSucceeds t) := by
  rcases importJSONTemplate_cases st uri t with ⟨e, h2, h1⟩ | ⟨aw, h2, h1⟩
  · have hf : importSucceeds t = false := by
      unfold importSucceeds
      rw [← import_result_state_indep st uri t, h2]
      rfl
    rw [hf]
    simp [isConnected, h1]
  · have htr : importSucceeds t = true := by
      unfold importSucceeds
      rw [← import_result_state_indep st uri t, h2]
      rfl
    rw [htr]
    have hlen := mapSet_length_pos st.windowData aw.id aw
    simp [isConnected, h1, hlen]

/-- C10: `isConnected` is a total boolean read of the window map (so it
never throws); it is false on a freshly constructed provider and after
`clearImportedData`, and over any sequence of operations it is true
exactly when some import succeeded since the last clear. -/
theorem isConnected_iff_import_since_clear :
    isConnected initialState = false ∧
    (∀ st, isConnected (clearImportedData st) = false) ∧
    (∀ ops, isConnected (runOps ops) = successfulImportSinceClear ops) := by
  refine ⟨rfl, fun st => rfl, ?_⟩
  have h : ∀ (ops : List ProviderOp) (st : ProviderState),
      isConnected (ops.foldl applyOp st) =
        ops.foldl
          (fun acc op =>
            match op with
            | .importTemplate _ t => acc || importSucceeds t
            | .clearImportedData => false)
          (isConnected st) := by
    intro ops
    induction ops with
    | nil => intro st; rfl
    | cons op ops ih =>
      intro st
      cases op with
      | importTemplate uri t =>
        simp only [List.foldl_cons, applyOp]
        rw [ih, isConnected_step_import]
      | clearImportedData =>
        simp only [List.foldl_cons, applyOp]
        rw [ih]
        rfl
  intro ops
  simpa [runOps, successfulImportSinceClear] using h ops initialState

/-- C5: importing a document lacking a tabs array fails at the
structural-validation stage: the pipeline records the failing
structure-validation diagnostic, no later stage (window-id extraction,
adaptation, storage, reference extraction, completion) ever logs, the
diagnostic log is completed and its last entry has success false, and the
call throws exactly once (the single returned error). -/
theorem import_missing_tabs_fails_at_validation :
    ∀ (st : ProviderState) (uri : String) (t : ExtWindow), t.tabs = none →
      ∃ e, (importJSONTemplate st uri t).2 =
          .error ("Failed to import JSON template: " ++ e) ∧
        (∃ d ∈ (importJSONTemplate st uri t).1.importDiagnostics,
           d.stage = "structure_validation" ∧ d.success = false) ∧
        (importJSONTemplate st uri t).1.importDiagnostics.getLast? =
          some (failDiag e) ∧
        (failDiag e).success = false ∧
        (∀ d ∈ (importJSONTemplate st uri t).1.importDiagnostics,
           d.stage ≠ "windowid_extraction" ∧ d.stage ≠ "windowid_analysis" ∧
           d.stage ≠ "metadata_adaptation" ∧ d.stage ≠ "data_storage" ∧
           d.stage ≠ "reference_extraction" ∧ d.stage ≠ "import_complete") := by
  intro st uri t h
  rcases validateTemplateStructure_no_tabs t h with ⟨e, msg, hv, hvlog⟩
  rcases import_validation_error_result st uri t e hv with ⟨hres, _, hlog⟩
  refine ⟨e, hres, ?_, ?_, rfl, ?_⟩
  · refine ⟨⟨"structure_validation", false, msg⟩, ?_, rfl, rfl⟩
    rw [hlog, hvlog]
    simp
  · rw [hlog]
    exact List.getLast?_concat _
  · intro d hd
    rw [hlog, hvlog] at hd
    simp only [List.mem_append, List.mem_cons, List.not_mem_nil, or_false] at hd
    rcases hd with ((rfl | rfl | rfl | rfl | rfl) | (rfl | rfl)) | rfl <;>
      refine ⟨?_, ?_, ?_, ?_, ?_, ?_⟩ <;> simp [failDiag]

/-- Witness for C5 at a concrete document lacking the tabs array. -/
theorem import_missing_tabs_fails_at_validation_witness :
    ∃ e, (importJSONTemplate initialState "file.json" noTabsDoc).2 =
        .error ("Failed to import JSON template: " ++ e) ∧
      (∃ d ∈ (importJSONTemplate initialState "file.json" noTabsDoc).1.importDiagnostics,
         d.stage = "structure_validation" ∧ d.success = false) ∧
      (importJSONTemplate initialState "file.json" noTabsDoc).1.importDiagnostics.getLast? =
        some (failDiag e) ∧
      (failDiag e).success = false ∧
      (∀ d ∈ (importJSONTemplate initialState "file.json" noTabsDoc).1.importDiagnostics,
         d.stage ≠ "windowid_extraction" ∧ d.stage ≠ "windowid_analysis" ∧
         d.stage ≠ "metadata_adaptation" ∧ d.stage ≠ "data_storage" ∧
         d.stage ≠ "reference_extraction" ∧ d.stage ≠ "import_complete") :=
  import_missing_tabs_fails_at_validation initialState "file.json" noTabsDoc rfl

/-- Counterexample to C3: importing { name: "Site Audit" } (no windowId, no
id) through the pipeline does not resolve the window id to SITE_AUDIT —
the document is rejected by structural validation before window-id
extraction runs, and no window is stored. -/
theorem name_only_document_rejected :
    (importJSONTemplate initialState "site.json" siteAuditDoc).2 =
      .error "Failed to import JSON template: Template missing required windowId or id field" ∧
    (importJSONTemplate initialState "site.json" siteAuditDoc).1.windowData = [] ∧
    (∀ d ∈ (importJSONTemplate initialState "site.json" siteAuditDoc).1.importDiagnostics,
       d.stage ≠ "windowid_extraction") := by
  refine ⟨rfl, by decide, ?_⟩
  intro d hd
  have hlist :
      (importJSONTemplate initialState "site.json" siteAuditDoc).1.importDiagnostics =
        [ ⟨"import_start", true, "Starting JSON template import from: site.json"⟩
        , ⟨"file_access_check", true, "Checking file accessibility: site.json"⟩
        , ⟨"content_reading", true, "Using provided JSON content"⟩
        , ⟨"json_parsing", true, "Starting JSON parsing"⟩
        , ⟨"json_parsing", true, "JSON parsing successful"⟩
        , ⟨"structure_validation", true, "Starting template structure validation"⟩
        , ⟨"structure_validation", false, "Missing required windowId or id field"⟩
        , ⟨"import_failed", false,
            "Error: Template missing required windowId or id field"⟩ ] := by decide
  rw [hlist] at hd
  simp only [List.mem_cons, List.not_mem_nil, or_false] at hd
  rcases hd with rfl | rfl | rfl | rfl | rfl | rfl | rfl | rfl <;> decide

/-- Amended C3: `extractAndAnalyzeWindowId` does implement the name-slug
fallback — on a template whose `windowId` and `id` are falsy and whose name
is non-empty it resolves the slug (uppercased, non-alphanumerics replaced
by underscore), and the slug of "Site Audit" is SITE_AUDIT — but a
document with falsy `windowId` and `id` never reaches that stage through
`importJSONTemplate`: structural validation rejects it first, so the
name-tier of the fallback is unreachable through the import pipeline. -/
theorem windowId_extraction_name_fallback :
    (∀ (t : ExtWindow) (n : String), t.name = some n → n ≠ "" →
       truthyStr t.windowId = false → truthyStr t.id = false →
       (extractAndAnalyzeWindowId t).2 = .ok (slugify n)) ∧
    slugify "Site Audit" = "SITE_AUDIT" ∧
    (∀ (st : ProviderState) (uri : String) (t : ExtWindow),
       truthyStr t.windowId = false → truthyStr t.id = false →
       (importJSONTemplate st uri t).2 =
         .error ("Failed to import JSON template: " ++
           "Template missing required windowId or id field")) := by
  refine ⟨?_, by decide, ?_⟩
  · intro t n hn hne hw hid
    have hname : truthyStr (some n) = true := by simp [truthyStr, hne]
    simp [extractAndAnalyzeWindowId, hw, hid, hn, hname]
  · intro st uri t hw hid
    have hval : (validateTemplateStructure t).2 =
        .error "Template missing required windowId or id field" := by
      simp [validateTemplateStructure, hw, hid]
    exact (import_validation_error_result st uri t _ hval).1

/-- Witness for the amended C3 at the Site Audit document. -/
theorem windowId_extraction_name_fallback_witness :
    (extractAndAnalyzeWindowId siteAuditDoc).2 = .ok (slugify "Site Audit") ∧
    (importJSONTemplate initialState "site.json" siteAuditDoc).2 =
      .error ("Failed to import JSON template: " ++
        "Template missing required windowId or id field") :=
  ⟨windowId_extraction_name_fallback.1 siteAuditDoc "Site Audit" rfl
      (by decide) rfl rfl,
   windowId_extraction_name_fallback.2.2 initialState "site.json" siteAuditDoc
      rfl rfl⟩

/-- Counterexample to C4: when `isConnected()` throws during the check and
the provider's cache is non-empty, the poll sets state `cached`, not
`error` as the claim states. -/
theorem connection_exception_with_cache_not_error :
    ConnectionMonitor.checkConnection "ExternalMetadataProvider"
      ConnectionMonitor.ConnCheck.exn 1 = ConnectionMonitor.ConnStatus.cached ∧
    ConnectionMonitor.ConnStatus.cached ≠ ConnectionMonitor.ConnStatus.error := by
  exact ⟨rfl, by decide⟩

/-- Amended C4: on every poll against the External provider, a successful
`isConnected()` yields `connected`; a false return yields `cached` with a
non-empty cache and `offline` with an empty one; and an exception during
the check yields `cached` with a non-empty cache and `error` only with an
empty one. -/
theorem connection_monitor_transitions :
    ∀ (n : Nat) (check : ConnectionMonitor.ConnCheck),
      ConnectionMonitor.checkConnection "ExternalMetadataProvider" check n =
        match check with
        | .ok true => ConnectionMonitor.ConnStatus.connected
        | .ok false =>
          if 0 < n then ConnectionMonitor.ConnStatus.cached
          else ConnectionMonitor.ConnStatus.offline
        | .exn =>
          if 0 < n then ConnectionMonitor.ConnStatus.cached
          else ConnectionMonitor.ConnStatus.error := by
  intro n check
  rcases check with b | _
  · cases b <;> rfl
  · rfl

open ExternalMetadataProvider

/-- C6: a cache entry is valid exactly while `now - timestamp < ttl`.
While valid, the getters return the stored object with the cache and the
adapter store unchanged, for every possible fetch outcome (no fresh fetch
is issued); in particular a second call within the TTL window after a call
that cached `(t1, aw)` returns that same object.  Once expired, the getter
issues the fetch and re-caches the fresh result with capture time `now`.
Both `getWindowDefinition` and `getReferenceValues` are covered. -/
theorem ttl_cache_validity :
    (∀ (c : ExtCache) (ttl now : Nat) (wid : String) (fetch : WinFetch)
       (store : MetadataAdapter.Store) (ts : Nat) (data : AdWindow),
       mapGet c.winEntries ("window_" ++ wid) = some (ts, data) →
       now - ts < ttl →
       getWindowDefinition c ttl now wid fetch store = (.ok data, c, store)) ∧
    (∀ (c : ExtCache) (ttl now : Nat) (wid : String)
       (store : MetadataAdapter.Store) (ts : Nat) (data : AdWindow),
       mapGet c.winEntries ("window_" ++ wid) = some (ts, data) →
       ¬ now - ts < ttl →
       ∀ (ext : ExtWindow) (aw : AdWindow) (store' : MetadataAdapter.Store),
         MetadataAdapter.adaptWindowDefinition ext store = .ok (aw, store') →
         getWindowDefinition c ttl now wid (.ok ext) store =
           ( .ok aw
           , { c with winEntries :=
                 mapSet c.winEntries ("window_" ++ wid) (now, aw) }
           , store' )) ∧
    (∀ (c : ExtCache) (ttl t1 t2 : Nat) (wid : String) (aw : AdWindow)
       (fetch2 : WinFetch) (store2 : MetadataAdapter.Store),
       t2 - t1 < ttl →
       getWindowDefinition
           { c with winEntries :=
               mapSet c.winEntries ("window_" ++ wid) (t1, aw) }
           ttl t2 wid fetch2 store2 =
         ( .ok aw
         , { c with winEntries :=
               mapSet c.winEntries ("window_" ++ wid) (t1, aw) }
         , store2 )) ∧
    (∀ (c : ExtCache) (ttl now : Nat) (rid : String)
       (store : MetadataAdapter.Store) (fetch : RefFetch) (ts : Nat)
       (data : List AdRefValue),
       mapGet c.refEntries ("ref_" ++ rid) = some (ts, data) →
       now - ts < ttl →
       getReferenceValues c ttl now rid store fetch = (data, c)) ∧
    (∀ (c : ExtCache) (ttl now : Nat) (rid : String)
       (store : MetadataAdapter.Store) (ts : Nat) (data vs : List AdRefValue),
       mapGet c.refEntries ("ref_" ++ rid) = some (ts, data) →
       ¬ now - ts < ttl →
       MetadataAdapter.isEmbeddedReference rid = false →
       getReferenceValues c ttl now rid store (.ok (some vs)) =
         ( vs
         , { c with refEntries :=
               mapSet c.refEntries ("ref_" ++ rid) (now, vs) } )) := by
  refine ⟨?_, ?_, ?_, ?_, ?_⟩
  · intro c ttl now wid fetch store ts data hmg hlt
    simp [getWindowDefinition, hmg, hlt]
  · intro c ttl now wid store ts data hmg hlt ext aw store' hadapt
    simp [getWindowDefinition, hmg, hlt, hadapt]
  · intro c ttl t1 t2 wid aw fetch2 store2 hlt
    have hmg : mapGet (mapSet c.winEntries ("window_" ++ wid) (t1, aw))
        ("window_" ++ wid) = some (t1, aw) :=
      mapGet_mapSet_self c.winEntries ("window_" ++ wid) (t1, aw)
    simp [getWindowDefinition, hmg, hlt]
  · intro c ttl now rid store fetch ts data hmg hlt
    simp [getReferenceValues, hmg, hlt]
  · intro c ttl now rid store ts data vs hmg hlt hemb
    simp [getReferenceValues, hmg, hlt, hemb]

/-- Witness for C6 at a concrete cache captured at time 100 with a
five-minute TTL: at time 200 both getters serve the stored entries
unchanged even though the supplied fetch would throw. -/
theorem ttl_cache_validity_witness :
    getWindowDefinition sampleCache 300000 200 "W" (.exn "network down") [] =
      (.ok sampleAdWindow, sampleCache, []) ∧
    getReferenceValues sampleCache 300000 200 "R" [] (.exn "network down") =
      (sampleAdValues, sampleCache) :=
  ⟨ttl_cache_validity.1 sampleCache 300000 200 "W" (.exn "network down") []
      100 sampleAdWindow (by decide) (by decide),
   ttl_cache_validity.2.2.2.1 sampleCache 300000 200 "R" []
      (.exn "network down") 100 sampleAdValues (by decide) (by decide)⟩
